import Mathlib

/-!
Verification of the location-ingestion endpoint of the admin-dashboard
repository.

The repository contains two implementations of `POST /api/user-location`:
  * a MySQL variant (`src/app/api/user-location/route.ts`), storing
    `inside_zone` as TINYINT `1` / `0` / `NULL`, reached through the
    `mysql2/promise` pool of `src/lib/db.ts`, and
  * a Postgres variant of the same endpoint, reached through a `pg` pool,
    storing `inside_zone` as BOOLEAN / `NULL`.

Both are embedded below as pure functions over an explicit database state.
JavaScript numbers are modelled by `JSNum` (NaN, signed infinities, or a
finite rational): the endpoint never computes with coordinates, it only
tests `typeof x === "number"`, truthiness, and stores them, so no
floating-point arithmetic is required.

Driver-level binding semantics are part of the model, because the two
stacks disagree on non-finite and non-integral numbers:
  * `mysql2`'s `query()` interpolates `?` placeholders client-side
    (sqlstring escapes a JS number as `val + ''`), so `NaN` / `Infinity`
    land in the SQL text as bare identifiers and the statement is rejected
    by the server — the handler's `catch` answers 500 and that statement
    writes nothing (`mysqlNumOk`).
  * `pg` transmits parameters out-of-band as text: a non-integral or
    non-finite id fails int4 input parsing (500), while `float8` input
    accepts `NaN` and `Infinity`, so non-finite coordinates are stored
    (`pgIntOk`, `pgFloatOk`).

Transient query failures are modelled by a schedule `fail : Nat → Bool`
indexed by the four query sites in source order (0 = role SELECT,
1 = location SELECT, 2 = location upsert, 3 = alert INSERT); a failing
query throws, reaches the `catch` block, and the handler answers 500 with
every already-awaited write still in place (no transaction wraps the
statements).  Timestamps (`updated_at`, `occurred_at`) are the current
clock in both variants and carry no decision-relevant information, so
they are not part of the state.
-/

/-- A JavaScript `number` value: NaN, an infinity (`true` = positive), or a
finite value, modelled as a rational. -/
inductive JSNum where
  | nan : JSNum
  | inf : Bool → JSNum
  | fin : ℚ → JSNum
deriving DecidableEq, Repr

/-- JavaScript truthiness of a number: `false` exactly for `NaN` and `0`
(this is what `!userId` tests in the handler). -/
def JSNum.truthy : JSNum → Bool
  | .nan => false
  | .inf _ => true
  | .fin q => q != 0

/-- Finiteness of a JS number (`Number.isFinite`): true only for finite
values.  The handlers never test this themselves; it decides whether
mysql2's client-side interpolation produces valid SQL. -/
def JSNum.isFiniteNum : JSNum → Bool
  | .fin _ => true
  | _ => false

/-- Whether a JS number is a (finite) integer — the values that survive
Postgres int4 input parsing when bound against an integer column. -/
def JSNum.isIntegral : JSNum → Bool
  | .fin q => q.den == 1
  | _ => false

/-- The `role` column of the `users` table. -/
inductive Role where
  | admin : Role
  | user : Role
deriving DecidableEq, Repr

/-- The parsed JSON request body, after the type-narrowing cast in the
handler: each numeric field is either absent (`none`, i.e. not a number)
or a JS number; `insideZone` is a boolean or absent (`null`/`undefined`
are indistinguishable to the handler, which tests both). -/
structure Body where
  userId : Option JSNum
  latitude : Option JSNum
  longitude : Option JSNum
  insideZone : Option Bool
deriving DecidableEq, Repr

/-- A `user_locations` row of the MySQL variant: `inside_zone` is
TINYINT(1) NULL, so an integer or NULL. -/
structure LocRowM where
  latitude : JSNum
  longitude : JSNum
  inside_zone : Option Int
deriving DecidableEq, Repr

/-- A `user_locations` row of the Postgres variant: `inside_zone` is
BOOLEAN NULL. -/
structure LocRowP where
  latitude : JSNum
  longitude : JSNum
  inside_zone : Option Bool
deriving DecidableEq, Repr

/-- An `alerts` row, restricted to the columns both variants write
explicitly (`occurred_at` is the current clock in both variants — column
default in MySQL, `NOW()` in Postgres — and carries no information about
the decision logic).  The table is append-only. -/
structure AlertRow where
  user_id : Int
  alert_type : String
  latitude : JSNum
  longitude : JSNum
deriving DecidableEq, Repr

/-- Database state seen by the MySQL variant. `users` associates integer
ids to roles; `user_locations` holds at most one row per user id (unique
key on `user_id`); `alerts` is append-only. -/
structure DBM where
  users : List (Int × Role)
  user_locations : List (Int × LocRowM)
  alerts : List AlertRow
deriving DecidableEq, Repr

/-- Database state seen by the Postgres variant. -/
structure DBP where
  users : List (Int × Role)
  user_locations : List (Int × LocRowP)
  alerts : List AlertRow
deriving DecidableEq, Repr

/-- Lookup `SELECT role FROM users WHERE id = ? LIMIT 1`: the supplied JS
number matches an integer id exactly when it equals that integer (SQL
numeric comparison); returns the matched id together with the role. -/
def findUser (users : List (Int × Role)) (uid : JSNum) : Option (Int × Role) :=
  users.find? (fun p => uid == JSNum.fin (p.1 : ℚ))

/-- Lookup `SELECT ... FROM user_locations WHERE user_id = ? LIMIT 1`. -/
def findRow {α : Type} (locs : List (Int × α)) (n : Int) : Option α :=
  (locs.find? (fun p => p.1 == n)).map (fun p => p.2)

/-- Upsert `INSERT ... ON DUPLICATE KEY UPDATE` (MySQL) / `INSERT ... ON
CONFLICT (user_id) DO UPDATE` (Postgres): replace the row keyed by `n` if
present, else append a new row. -/
def upsertRow {α : Type} (locs : List (Int × α)) (n : Int) (row : α) :
    List (Int × α) :=
  if (locs.find? (fun p => p.1 == n)).isSome then
    locs.map (fun p => if p.1 == n then (n, row) else p)
  else
    locs ++ [(n, row)]

/-- The observable HTTP responses of the handler. -/
inductive Resp where
  | invalidInput : Resp -- 400 "Missing userId or coordinates"
  | notFound : Resp -- 404 "User not found"
  | ignoredOk : Resp -- 200 { success: true, ignored: true }
  | ok : Resp -- 200 { success: true }
  | serverError : Resp -- 500 "Error updating location" (catch block)
deriving DecidableEq, Repr

/-- Whether a JS number survives mysql2's client-side `?` interpolation as
a valid SQL numeric literal: sqlstring escapes a number as `val + ''`, so
`NaN` and `Infinity` become bare identifiers and the statement errors. -/
def mysqlNumOk (x : JSNum) : Bool := x.isFiniteNum

/-- Whether a JS number survives `pg` parameter binding against an int4
column: the driver sends the decimal text, so only finite integers
parse. -/
def pgIntOk (x : JSNum) : Bool := x.isIntegral

/-- Whether a JS number survives `pg` parameter binding against a float8
column: PostgreSQL float8 input accepts `NaN` and `Infinity` text, so
every JS number is accepted. -/
def pgFloatOk (_ : JSNum) : Bool := true

/-- Source `const hasZoneInfo = insideZone !== null && insideZone !==
undefined` (identical in both variants). -/
def hasZoneInfo (b : Body) : Bool := b.insideZone != none

/-- MySQL `const insideVal = insideZone === true ? 1 : 0`. -/
def insideValM (b : Body) : Int := if b.insideZone = some true then 1 else 0

/-- Postgres `const insideVal = insideZone === true` (a boolean). -/
def insideValP (b : Body) : Bool := b.insideZone = some true

/-- The `inside_zone` value bound into the MySQL upsert:
`hasZoneInfo ? insideVal : null`. -/
def storedZoneM (b : Body) : Option Int :=
  if hasZoneInfo b then some (insideValM b) else none

/-- The `inside_zone` value bound into the Postgres upsert:
`hasZoneInfo ? insideVal : null`. -/
def storedZoneP (b : Body) : Option Bool :=
  if hasZoneInfo b then some (insideValP b) else none

/-- The previous persisted `inside_zone` value the MySQL handler compares
against (`prevInside`): `NULL` when no row exists or the row's column is
`NULL`. -/
def prevOf (db : DBM) (n : Int) : Option Int :=
  (findRow db.user_locations n).bind (fun r => r.inside_zone)

/-- The Postgres handler's `prevInside` (BOOLEAN NULL). -/
def prevOfP (db : DBP) (n : Int) : Option Bool :=
  (findRow db.user_locations n).bind (fun r => r.inside_zone)

/-- The database after the MySQL location upsert. -/
def upsertedM (db : DBM) (b : Body) (n : Int) (lat lng : JSNum) : DBM :=
  { db with user_locations := upsertRow db.user_locations n ⟨lat, lng, storedZoneM b⟩ }

/-- The database after the Postgres location upsert. -/
def upsertedP (db : DBP) (b : Body) (n : Int) (lat lng : JSNum) : DBP :=
  { db with user_locations := upsertRow db.user_locations n ⟨lat, lng, storedZoneP b⟩ }

/-- The alert row the MySQL variant inserts on a detected transition:
`alert_type = insideVal === 1 ? "enter" : "exit"`, with the just-reported
coordinates. -/
def alertOfM (b : Body) (n : Int) (lat lng : JSNum) : AlertRow :=
  ⟨n, if insideValM b = 1 then "enter" else "exit", lat, lng⟩

/-- The alert row the Postgres variant inserts on a detected transition:
`alert_type = insideVal ? "enter" : "exit"`. -/
def alertOfP (b : Body) (n : Int) (lat lng : JSNum) : AlertRow :=
  ⟨n, if insideValP b then "enter" else "exit", lat, lng⟩

/-- The MySQL variant of `POST /api/user-location`
(`src/app/api/user-location/route.ts`), with an explicit query-failure
schedule. Mirrors the source step by step: validation
(`!userId || typeof latitude !== "number" || typeof longitude !== "number"`),
role lookup, admin short-circuit, previous `inside_zone` read (`prevOf`,
evaluated against the pre-upsert state exactly as the source reads it
before writing), upsert of `(latitude, longitude, inside_zone)`, and the
conditional alert insert guarded by
`hasZoneInfo && prevInside !== null && prevInside !== insideVal`.
Each query site throws either transiently (`fail k`) or deterministically
when one of its interpolated numeric bindings is non-finite
(`mysqlNumOk`); a thrown statement writes nothing and the `catch` answers
500 with earlier writes kept. -/
def POSTm (fail : Nat → Bool) (db : DBM) (b : Body) : Resp × DBM :=
  match b.userId, b.latitude, b.longitude with
  | some uid, some lat, some lng =>
    if !uid.truthy then (.invalidInput, db)
    else if fail 0 || !mysqlNumOk uid then (.serverError, db)
    else
      match findUser db.users uid with
      | none => (.notFound, db)
      | some (uidN, userRole) =>
        if userRole = Role.admin then (.ignoredOk, db)
        else if fail 1 || !mysqlNumOk uid then (.serverError, db)
        else if fail 2 || !(mysqlNumOk uid && mysqlNumOk lat && mysqlNumOk lng) then
          (.serverError, db)
        else if hasZoneInfo b && prevOf db uidN != none
                && prevOf db uidN != some (insideValM b) then
          if fail 3 || !(mysqlNumOk uid && mysqlNumOk lat && mysqlNumOk lng) then
            (.serverError, upsertedM db b uidN lat lng)
          else
            (.ok,
             { upsertedM db b uidN lat lng with
               alerts := db.alerts ++ [alertOfM b uidN lat lng] })
        else (.ok, upsertedM db b uidN lat lng)
  | _, _, _ => (.invalidInput, db)

/-- The Postgres variant of `POST /api/user-location`
(second implementation of the same endpoint), with the same query-failure
schedule. Mirrors its source: identical validation, role lookup and admin
short-circuit; `prevInside` is BOOLEAN NULL; `insideVal` is a boolean;
same upsert and the same alert guard.  Its query sites throw either
transiently or deterministically when the id binding fails int4 parsing
(`pgIntOk`); float8 bindings accept every JS number (`pgFloatOk`). -/
def POSTp (fail : Nat → Bool) (db : DBP) (b : Body) : Resp × DBP :=
  match b.userId, b.latitude, b.longitude with
  | some uid, some lat, some lng =>
    if !uid.truthy then (.invalidInput, db)
    else if fail 0 || !pgIntOk uid then (.serverError, db)
    else
      match findUser db.users uid with
      | none => (.notFound, db)
      | some (uidN, userRole) =>
        if userRole = Role.admin then (.ignoredOk, db)
        else if fail 1 || !pgIntOk uid then (.serverError, db)
        else if fail 2 || !(pgIntOk uid && pgFloatOk lat && pgFloatOk lng) then
          (.serverError, db)
        else if hasZoneInfo b && prevOfP db uidN != none
                && prevOfP db uidN != some (insideValP b) then
          if fail 3 || !(pgIntOk uid && pgFloatOk lat && pgFloatOk lng) then
            (.serverError, upsertedP db b uidN lat lng)
          else
            (.ok,
             { upsertedP db b uidN lat lng with
               alerts := db.alerts ++ [alertOfP b uidN lat lng] })
        else (.ok, upsertedP db b uidN lat lng)
  | _, _, _ => (.invalidInput, db)

/-- The failure-free schedule: no query throws transiently. -/
def noFail : Nat → Bool := fun _ => false

/-- MySQL variant in a transient-failure-free execution. -/
def POSTm0 (db : DBM) (b : Body) : Resp × DBM := POSTm noFail db b

/-- Postgres variant in a transient-failure-free execution. -/
def POSTp0 (db : DBP) (b : Body) : Resp × DBP := POSTp noFail db b

/-- Encoding of the Postgres BOOLEAN into the MySQL TINYINT the handler
uses: `true ↦ 1`, `false ↦ 0`. -/
def encB (b : Bool) : Int := if b then 1 else 0

/-- Row correspondence between the two storage schemas. -/
def encRowP (r : LocRowP) : LocRowM :=
  ⟨r.latitude, r.longitude, r.inside_zone.map encB⟩

/-- State correspondence: same users and alerts, and every location row of
the MySQL database is the TINYINT encoding of the Postgres row with the
same key, in the same order. -/
def dbRel (dm : DBM) (dp : DBP) : Prop :=
  dm.users = dp.users ∧ dm.alerts = dp.alerts ∧
  dm.user_locations = dp.user_locations.map (fun p => (p.1, encRowP p.2))

/-- The MySQL image of a Postgres database state under the TINYINT
encoding. -/
def encDB (dp : DBP) : DBM :=
  ⟨dp.users, dp.user_locations.map (fun p => (p.1, encRowP p.2)), dp.alerts⟩

/-- Shape-level input validation as the two handlers actually perform it:
`userId` absent or falsy (0 or NaN), or `latitude`/`longitude` absent
(i.e. not a number).  NaN/infinite coordinates and negative ids pass. -/
def badShape (b : Body) : Bool :=
  b.userId = none ||
  (match b.userId with | some u => !u.truthy | none => true) ||
  b.latitude = none || b.longitude = none

/-- A request whose present numeric fields the two database drivers handle
identically: an integral `userId` and finite coordinates.  Outside this
set the stacks diverge (mysql2 rejects non-finite interpolations, pg
rejects non-integral int4 bindings but stores non-finite float8s). -/
def driverSafe (b : Body) : Bool :=
  (match b.userId with | some u => u.isIntegral | none => true) &&
  (match b.latitude with | some l => l.isFiniteNum | none => true) &&
  (match b.longitude with | some l => l.isFiniteNum | none => true)

-- Concrete sample states and requests used by counterexamples and
-- witnesses.

/-- One tracked (non-admin) user with id 1 and no location row. -/
def dbOneUser : DBM := ⟨[(1, Role.user)], [], []⟩

/-- Postgres twin of `dbOneUser`. -/
def dpOneUser : DBP := ⟨[(1, Role.user)], [], []⟩

/-- User 1 with a persisted location row whose `inside_zone` is 1
(definitely inside). -/
def dbOneUserInside : DBM := ⟨[(1, Role.user)], [(1, ⟨.fin 10, .fin 20, some 1⟩)], []⟩

/-- Postgres twin of `dbOneUserInside` (`inside_zone = TRUE`). -/
def dpOneUserInside : DBP := ⟨[(1, Role.user)], [(1, ⟨.fin 10, .fin 20, some true⟩)], []⟩

/-- A report from user 1 with hint `false` (an exit transition when the
prior state is inside). -/
def bodyExitReport : Body := ⟨some (.fin 1), some (.fin 11), some (.fin 21), some false⟩

/-- A first report from user 1 with a definite hint. -/
def bodyFirstReport : Body := ⟨some (.fin 1), some (.fin 5), some (.fin 6), some true⟩

/-- A report from user 1 with the hint absent. -/
def bodyAbsentHint : Body := ⟨some (.fin 1), some (.fin 3), some (.fin 4), none⟩

/-- A report whose `latitude` is NaN (present and of type number, but not
finite). -/
def bodyNaNLat : Body := ⟨some (.fin 1), some .nan, some (.fin 0), some true⟩

/-- A report with a negative (non-positive) `userId`. -/
def bodyNegId : Body := ⟨some (.fin (-5)), some (.fin 0), some (.fin 0), some true⟩

/-- The rational 3/2, written with explicit fields so the kernel can
evaluate it. -/
def qThreeHalves : ℚ := ⟨3, 2, by decide, by decide⟩

/-- A report with a finite but non-integral `userId` (JS number 1.5). -/
def bodyFracId : Body := ⟨some (.fin qThreeHalves), some (.fin 0), some (.fin 0), some true⟩

/-- A report with `userId` missing. -/
def bodyMissingId : Body := ⟨none, some (.fin 0), some (.fin 0), none⟩

/-- A report with a well-shaped `userId` that matches no user. -/
def bodyUnknownId : Body := ⟨some (.fin 999999), some (.fin 0), some (.fin 0), some true⟩

/-- Admin user with id 2 holding a (stale) location row. -/
def dbAdminIn : DBM := ⟨[(2, Role.admin)], [(2, ⟨.fin 1, .fin 2, some 1⟩)], []⟩

/-- Postgres admin-only state. -/
def dpAdmin : DBP := ⟨[(2, Role.admin)], [], []⟩

/-- A hint-absent report from admin user 2. -/
def bodyAdminAbsent : Body := ⟨some (.fin 2), some (.fin 3), some (.fin 4), none⟩

/-- The schedule in which exactly the alert INSERT (query site 3)
throws. -/
def failAlertInsert : Nat → Bool := fun i => i == 3

-- Helper lemmas about the embedding.

/-- The handler never touches the `users` table. -/
theorem POSTm_users (fail : Nat → Bool) (db : DBM) (b : Body) :
    (POSTm fail db b).2.users = db.users := by
  unfold POSTm
  repeat' split
  all_goals rfl

/-- A matched user lookup pins the supplied JS number to the matched
integer id. -/
theorem findUser_eq_fin (users : List (Int × Role)) (uid : JSNum)
    (pr : Int × Role) (h : findUser users uid = some pr) :
    uid = JSNum.fin ((pr.1 : Int) : ℚ) := by
  have hp := List.find?_some h
  simpa using hp

theorem isFiniteNum_int (k : Int) : (JSNum.fin (k : ℚ)).isFiniteNum = true := rfl

theorem isIntegral_int (k : Int) : (JSNum.fin (k : ℚ)).isIntegral = true := by
  simp [JSNum.isIntegral, Rat.den_intCast]

theorem isFiniteNum_of_isIntegral (x : JSNum) (h : x.isIntegral = true) :
    x.isFiniteNum = true := by
  cases x <;> simp_all [JSNum.isIntegral, JSNum.isFiniteNum]

theorem mysqlNumOk_of_findUser (users : List (Int × Role)) (uid : JSNum)
    (pr : Int × Role) (h : findUser users uid = some pr) :
    mysqlNumOk uid = true := by
  rw [findUser_eq_fin users uid pr h]
  rfl

theorem pgIntOk_of_findUser (users : List (Int × Role)) (uid : JSNum)
    (pr : Int × Role) (h : findUser users uid = some pr) :
    pgIntOk uid = true := by
  rw [findUser_eq_fin users uid pr h]
  simp [pgIntOk, isIntegral_int]

/-- After an upsert for key `n`, looking up key `n` returns the new row. -/
theorem findRow_upsertRow_self {α : Type} (l : List (Int × α)) (n : Int) (r : α) :
    findRow (upsertRow l n r) n = some r := by
  unfold upsertRow
  split
  case isTrue h =>
    induction l with
    | nil => simp at h
    | cons p t ih =>
      by_cases hp : p.1 = n
      · simp [findRow, List.find?_cons, hp]
      · have h' : (t.find? (fun q => q.1 == n)).isSome := by
          simpa [List.find?_cons, hp] using h
        simpa [findRow, List.find?_cons, hp] using ih h'
  case isFalse h =>
    induction l with
    | nil => simp [findRow]
    | cons p t ih =>
      by_cases hp : p.1 = n
      · exfalso
        simp [List.find?_cons, hp] at h
      · have h' : ¬(t.find? (fun q => q.1 == n)).isSome := by
          simpa [List.find?_cons, hp] using h
        simpa [findRow, List.find?_cons, hp] using ih h'

/-- Success-path characterization of the MySQL handler for an existing
non-admin user with shape-valid input and finite coordinates. -/
theorem POSTm0_user (db : DBM) (b : Body) (uid lat lng : JSNum) (n : Int)
    (hu : b.userId = some uid) (hlat : b.latitude = some lat)
    (hlng : b.longitude = some lng) (ht : uid.truthy = true)
    (hlatf : lat.isFiniteNum = true) (hlngf : lng.isFiniteNum = true)
    (hf : findUser db.users uid = some (n, Role.user)) :
    POSTm0 db b =
      if hasZoneInfo b && prevOf db n != none
          && prevOf db n != some (insideValM b) then
        (Resp.ok,
         { upsertedM db b n lat lng with
           alerts := db.alerts ++ [alertOfM b n lat lng] })
      else (Resp.ok, upsertedM db b n lat lng) := by
  have hufin : uid.isFiniteNum = true := mysqlNumOk_of_findUser db.users uid _ hf
  unfold POSTm0 POSTm
  rw [hu, hlat, hlng]
  simp [ht, hf, noFail, hufin, mysqlNumOk, hlatf, hlngf]

/-- Error-path characterization of the MySQL handler: a shape-valid
request for an existing non-admin user whose latitude or longitude is not
finite makes the interpolated upsert statement fail — 500, nothing
written. -/
theorem POSTm0_badNum (db : DBM) (b : Body) (uid lat lng : JSNum) (n : Int)
    (hu : b.userId = some uid) (hlat : b.latitude = some lat)
    (hlng : b.longitude = some lng) (ht : uid.truthy = true)
    (hf : findUser db.users uid = some (n, Role.user))
    (hbad : (lat.isFiniteNum && lng.isFiniteNum) = false) :
    POSTm0 db b = (Resp.serverError, db) := by
  have hufin : uid.isFiniteNum = true := mysqlNumOk_of_findUser db.users uid _ hf
  unfold POSTm0 POSTm
  rw [hu, hlat, hlng]
  rcases Bool.and_eq_false_iff.mp hbad with hb | hb <;>
    simp [ht, hf, noFail, hufin, mysqlNumOk, hb]

/-- Appending one alert changes the list. -/
theorem alerts_append_ne (l : List AlertRow) (a : AlertRow) : l ++ [a] ≠ l := by
  intro h
  have hlen := congrArg List.length h
  simp at hlen

/-- A hint-absent report with finite coordinates for an existing non-admin
user emits no alert and persists the row with `inside_zone = NULL` and the
new coordinates. -/
theorem absentHint_state (db : DBM) (b : Body) (uid lat lng : JSNum) (n : Int)
    (hu : b.userId = some uid) (hlat : b.latitude = some lat)
    (hlng : b.longitude = some lng) (ht : uid.truthy = true)
    (hlatf : lat.isFiniteNum = true) (hlngf : lng.isFiniteNum = true)
    (hf : findUser db.users uid = some (n, Role.user))
    (hz : b.insideZone = none) :
    (POSTm0 db b).2.alerts = db.alerts ∧
    findRow (POSTm0 db b).2.user_locations n = some ⟨lat, lng, none⟩ := by
  rw [POSTm0_user db b uid lat lng n hu hlat hlng ht hlatf hlngf hf]
  have hhz : hasZoneInfo b = false := by simp [hasZoneInfo, hz]
  simp [hhz, upsertedM, findRow_upsertRow_self, storedZoneM]

/-- The persisted row after a successful non-admin report is a function of
the report alone. -/
theorem POSTm0_stored (db : DBM) (b : Body) (uid lat lng : JSNum) (n : Int)
    (hu : b.userId = some uid) (hlat : b.latitude = some lat)
    (hlng : b.longitude = some lng) (ht : uid.truthy = true)
    (hlatf : lat.isFiniteNum = true) (hlngf : lng.isFiniteNum = true)
    (hf : findUser db.users uid = some (n, Role.user)) :
    findRow (POSTm0 db b).2.user_locations n =
      some ⟨lat, lng, b.insideZone.map encB⟩ := by
  have hsz : storedZoneM b = b.insideZone.map encB := by
    rcases hbz : b.insideZone with _ | v
    · simp [storedZoneM, hasZoneInfo, hbz]
    · cases v <;> simp [storedZoneM, hasZoneInfo, insideValM, hbz, encB]
  rw [POSTm0_user db b uid lat lng n hu hlat hlng ht hlatf hlngf hf]
  split <;> simp [upsertedM, findRow_upsertRow_self, hsz]

/-- The MySQL handler answers 404 for an unknown but driver-interpolable
(finite) user id and mutates nothing. -/
theorem POSTm0_notFound (db : DBM) (b : Body) (uid lat lng : JSNum)
    (hu : b.userId = some uid) (hlat : b.latitude = some lat)
    (hlng : b.longitude = some lng) (ht : uid.truthy = true)
    (hfin : uid.isFiniteNum = true)
    (hf : findUser db.users uid = none) :
    POSTm0 db b = (Resp.notFound, db) := by
  unfold POSTm0 POSTm
  rw [hu, hlat, hlng]
  simp [ht, hf, noFail, mysqlNumOk, hfin]

/-- The Postgres handler answers 404 for an unknown integral user id and
mutates nothing. -/
theorem POSTp0_notFound (dp : DBP) (b : Body) (uid lat lng : JSNum)
    (hu : b.userId = some uid) (hlat : b.latitude = some lat)
    (hlng : b.longitude = some lng) (ht : uid.truthy = true)
    (hq : uid.isIntegral = true)
    (hf : findUser dp.users uid = none) :
    POSTp0 dp b = (Resp.notFound, dp) := by
  unfold POSTp0 POSTp
  rw [hu, hlat, hlng]
  simp [ht, hf, noFail, pgIntOk, hq]

/-- The MySQL handler short-circuits for admins with `ignored = true` and
mutates nothing (the admin return happens before any coordinate is ever
bound, so even non-finite coordinates do not matter). -/
theorem POSTm0_admin (db : DBM) (b : Body) (uid lat lng : JSNum) (n : Int)
    (hu : b.userId = some uid) (hlat : b.latitude = some lat)
    (hlng : b.longitude = some lng) (ht : uid.truthy = true)
    (hf : findUser db.users uid = some (n, Role.admin)) :
    POSTm0 db b = (Resp.ignoredOk, db) := by
  have hufin : uid.isFiniteNum = true := mysqlNumOk_of_findUser db.users uid _ hf
  unfold POSTm0 POSTm
  rw [hu, hlat, hlng]
  simp [ht, hf, noFail, mysqlNumOk, hufin]

/-- The Postgres handler short-circuits for admins with `ignored = true`
and mutates nothing. -/
theorem POSTp0_admin (dp : DBP) (b : Body) (uid lat lng : JSNum) (n : Int)
    (hu : b.userId = some uid) (hlat : b.latitude = some lat)
    (hlng : b.longitude = some lng) (ht : uid.truthy = true)
    (hf : findUser dp.users uid = some (n, Role.admin)) :
    POSTp0 dp b = (Resp.ignoredOk, dp) := by
  have huq : uid.isIntegral = true := pgIntOk_of_findUser dp.users uid _ hf
  unfold POSTp0 POSTp
  rw [hu, hlat, hlng]
  simp [ht, hf, noFail, pgIntOk, huq]

/-- The MySQL handler returns 400 exactly for shape-invalid input, and a
shape-invalid request mutates nothing, under every failure schedule. -/
theorem validationM (fail : Nat → Bool) (db : DBM) (b : Body) :
    ((POSTm fail db b).1 = Resp.invalidInput ↔ badShape b = true) ∧
    (badShape b = true → (POSTm fail db b).2 = db) := by
  rcases b with ⟨bu, blat, blng, bz⟩
  rcases bu with _ | uid
  · exact ⟨by simp [POSTm, badShape], fun _ => by simp [POSTm]⟩
  rcases blat with _ | lat
  · exact ⟨by simp [POSTm, badShape], fun _ => by simp [POSTm]⟩
  rcases blng with _ | lng
  · exact ⟨by simp [POSTm, badShape], fun _ => by simp [POSTm]⟩
  by_cases ht : uid.truthy
  · constructor
    · simp only [badShape, ht]
      unfold POSTm
      simp only [ht]
      repeat' split
      all_goals simp_all
    · intro hbad
      simp [badShape, ht] at hbad
  · constructor
    · simp [POSTm, badShape, ht]
    · intro _
      simp [POSTm, ht]

/-- Postgres analogue of `validationM` (the validation code is
identical). -/
theorem validationP (fail : Nat → Bool) (dp : DBP) (b : Body) :
    ((POSTp fail dp b).1 = Resp.invalidInput ↔ badShape b = true) ∧
    (badShape b = true → (POSTp fail dp b).2 = dp) := by
  rcases b with ⟨bu, blat, blng, bz⟩
  rcases bu with _ | uid
  · exact ⟨by simp [POSTp, badShape], fun _ => by simp [POSTp]⟩
  rcases blat with _ | lat
  · exact ⟨by simp [POSTp, badShape], fun _ => by simp [POSTp]⟩
  rcases blng with _ | lng
  · exact ⟨by simp [POSTp, badShape], fun _ => by simp [POSTp]⟩
  by_cases ht : uid.truthy
  · constructor
    · simp only [badShape, ht]
      unfold POSTp
      simp only [ht]
      repeat' split
      all_goals simp_all
    · intro hbad
      simp [badShape, ht] at hbad
  · constructor
    · simp [POSTp, badShape, ht]
    · intro _
      simp [POSTp, ht]

-- Lemmas relating the two storage encodings.

theorem find_key_map {α β : Type} (f : α → β) (l : List (Int × α)) (n : Int) :
    (l.map (fun p => (p.1, f p.2))).find? (fun p => p.1 == n) =
      (l.find? (fun p => p.1 == n)).map (fun p => (p.1, f p.2)) := by
  induction l with
  | nil => rfl
  | cons p t ih => by_cases h : p.1 = n <;> simp [List.find?_cons, h, ih]

theorem findRow_map {α β : Type} (f : α → β) (l : List (Int × α)) (n : Int) :
    findRow (l.map (fun p => (p.1, f p.2))) n = (findRow l n).map f := by
  unfold findRow
  rw [find_key_map]
  cases l.find? (fun p => p.1 == n) <;> simp

theorem upsertRow_map {α β : Type} (f : α → β) (l : List (Int × α)) (n : Int)
    (r : α) :
    upsertRow (l.map (fun p => (p.1, f p.2))) n (f r) =
      (upsertRow l n r).map (fun p => (p.1, f p.2)) := by
  unfold upsertRow
  rw [find_key_map]
  cases hfind : l.find? (fun p => p.1 == n) with
  | none => simp
  | some q =>
    simp only [Option.map_some', Option.isSome_some, if_true]
    rw [List.map_map, List.map_map]
    congr 1
    funext p
    by_cases h : p.1 = n <;> simp [Function.comp, h]

theorem insideValM_eq (b : Body) : insideValM b = encB (insideValP b) := by
  rcases hbz : b.insideZone with _ | v
  · simp [insideValM, insideValP, hbz, encB]
  · cases v <;> simp [insideValM, insideValP, hbz, encB]

theorem storedZoneM_eq (b : Body) :
    storedZoneM b = (storedZoneP b).map encB := by
  unfold storedZoneM storedZoneP
  split <;> simp [insideValM_eq]

theorem alertOf_eq (b : Body) (n : Int) (lat lng : JSNum) :
    alertOfM b n lat lng = alertOfP b n lat lng := by
  unfold alertOfM alertOfP
  rw [insideValM_eq]
  cases insideValP b <;> simp [encB]

theorem prevOf_rel (dm : DBM) (dp : DBP) (n : Int)
    (h : dm.user_locations = dp.user_locations.map (fun p => (p.1, encRowP p.2))) :
    prevOf dm n = (prevOfP dp n).map encB := by
  unfold prevOf prevOfP
  rw [h, findRow_map]
  cases findRow dp.user_locations n with
  | none => simp
  | some r => cases r.inside_zone <;> simp [encRowP]

theorem dbRel_iff (dm : DBM) (dp : DBP) : dbRel dm dp ↔ dm = encDB dp := by
  cases dm
  constructor
  · rintro ⟨h1, h2, h3⟩
    simp_all [encDB]
  · intro h
    simp_all [encDB, dbRel]

theorem upserted_enc (dp : DBP) (b : Body) (n : Int) (lat lng : JSNum) :
    upsertedM (encDB dp) b n lat lng = encDB (upsertedP dp b n lat lng) := by
  unfold upsertedM upsertedP encDB
  simp only
  have hrow : (⟨lat, lng, storedZoneM b⟩ : LocRowM) =
      encRowP ⟨lat, lng, storedZoneP b⟩ := by
    simp [encRowP, storedZoneM_eq]
  rw [hrow, upsertRow_map]

/-- Functional correspondence on driver-safe requests: the MySQL handler
applied to the TINYINT encoding of a Postgres state returns the same
response and the encoding of the Postgres result state, for every failure
schedule, provided the present numeric fields are ones the two drivers
handle identically (integral id, finite coordinates). -/
theorem POST_functional_rel (fail : Nat → Bool) (dp : DBP) (b : Body)
    (hsafe : driverSafe b = true) :
    POSTm fail (encDB dp) b =
      ((POSTp fail dp b).1, encDB (POSTp fail dp b).2) := by
  rcases b with ⟨bu, blat, blng, bz⟩
  rcases bu with _ | uid
  · rfl
  rcases blat with _ | lat
  · rfl
  rcases blng with _ | lng
  · rfl
  simp only [driverSafe, Bool.and_eq_true] at hsafe
  obtain ⟨⟨huq, hlf⟩, hgf⟩ := hsafe
  have hufin : uid.isFiniteNum = true := isFiniteNum_of_isIntegral uid huq
  have hmu : mysqlNumOk uid = true := hufin
  have hml : mysqlNumOk lat = true := hlf
  have hmg : mysqlNumOk lng = true := hgf
  have hpu : pgIntOk uid = true := huq
  unfold POSTm POSTp
  by_cases ht : uid.truthy
  case neg => simp [ht]
  by_cases h0 : fail 0
  · simp [ht, h0, hmu, hpu]
  have husers : (encDB dp).users = dp.users := rfl
  rw [husers]
  cases hfu : findUser dp.users uid with
  | none => simp [ht, h0, hfu, hmu, hpu]
  | some pr =>
    obtain ⟨n, role⟩ := pr
    cases role with
    | admin => simp [ht, h0, hfu, hmu, hpu]
    | user =>
      have hprev : prevOf (encDB dp) n = (prevOfP dp n).map encB :=
        prevOf_rel (encDB dp) dp n rfl
      have hcond :
          (hasZoneInfo ⟨some uid, some lat, some lng, bz⟩
              && prevOf (encDB dp) n != none
              && prevOf (encDB dp) n !=
                some (insideValM ⟨some uid, some lat, some lng, bz⟩)) =
          (hasZoneInfo ⟨some uid, some lat, some lng, bz⟩
              && prevOfP dp n != none
              && prevOfP dp n !=
                some (insideValP ⟨some uid, some lat, some lng, bz⟩)) := by
        rw [hprev, insideValM_eq]
        cases hp : prevOfP dp n with
        | none => rfl
        | some pv =>
          cases pv <;>
            cases hq : insideValP ⟨some uid, some lat, some lng, bz⟩ <;> rfl
      by_cases h1 : fail 1
      · simp [ht, h0, hfu, h1, hmu, hpu]
      by_cases h2 : fail 2
      · simp [ht, h0, hfu, h1, h2, hmu, hml, hmg, hpu, pgFloatOk]
      simp only [ht, Bool.not_true, Bool.false_eq_true, if_false, h0, h1, h2, hfu,
        hmu, hml, hmg, hpu, pgFloatOk, Bool.not_false, Bool.and_self,
        Bool.or_false, Bool.and_true, Bool.true_and, if_true]
      rw [hcond]
      by_cases hc : (hasZoneInfo ⟨some uid, some lat, some lng, bz⟩
          && prevOfP dp n != none
          && prevOfP dp n !=
            some (insideValP ⟨some uid, some lat, some lng, bz⟩)) = true
      · by_cases h3 : fail 3
        · simp [hc, h3, upserted_enc]
        · simp only [hc, h3, Bool.false_eq_true, if_false, if_true,
            Bool.or_false]
          rw [upserted_enc, alertOf_eq]
          simp [encDB]
      · simp [hc, upserted_enc]

-- Claim C1.

/-- Claim C1: for a ReportLocation call resolving to an existing non-admin
entity with valid (finite) coordinates and a tri-state prior
`inside_zone`, an Alert Event is emitted iff the report carries a definite
hint, the previous persisted state is a definite boolean, and the new
boolean differs from the previous one; when emitted, the alert's kind is
`enter` iff the new value is `true` and it carries exactly the reported
coordinates. -/
theorem C1_transition_alert (db : DBM) (b : Body) (uid lat lng : JSNum) (n : Int)
    (hu : b.userId = some uid) (hlat : b.latitude = some lat)
    (hlng : b.longitude = some lng) (ht : uid.truthy = true)
    (hlatf : lat.isFiniteNum = true) (hlngf : lng.isFiniteNum = true)
    (hf : findUser db.users uid = some (n, Role.user))
    (htri : prevOf db n = none ∨ prevOf db n = some 0 ∨ prevOf db n = some 1) :
    ((POSTm0 db b).2.alerts ≠ db.alerts ↔
      ∃ v : Bool, b.insideZone = some v ∧
        (∃ p : Bool, prevOf db n = some (encB p)) ∧ prevOf db n ≠ some (encB v)) ∧
    (∀ v : Bool, b.insideZone = some v → (POSTm0 db b).2.alerts ≠ db.alerts →
      (POSTm0 db b).2.alerts =
        db.alerts ++ [⟨n, if v then "enter" else "exit", lat, lng⟩]) := by
  rw [POSTm0_user db b uid lat lng n hu hlat hlng ht hlatf hlngf hf]
  rcases hbz : b.insideZone with _ | v
  · simp [hasZoneInfo, hbz, upsertedM]
  · have hiv : insideValM b = encB v := by
      cases v <;> simp [insideValM, hbz, encB]
    have hao : alertOfM b n lat lng = ⟨n, if v then "enter" else "exit", lat, lng⟩ := by
      cases v <;> simp [alertOfM, hiv, encB]
    rcases htri with hp | hp | hp
    · simp [hasZoneInfo, hbz, hp, upsertedM]
    · cases v <;>
        simp [hasZoneInfo, hbz, hp, hiv, hao, upsertedM, encB, alerts_append_ne]
    · cases v <;>
        simp [hasZoneInfo, hbz, hp, hiv, hao, upsertedM, encB, alerts_append_ne]

/-- Witness for C1 at a concrete exit transition: user 1 was inside
(`inside_zone = 1`) and reports `insideZone = false`. -/
theorem C1_witness :
    ((POSTm0 dbOneUserInside bodyExitReport).2.alerts ≠ dbOneUserInside.alerts ↔
      ∃ v : Bool, bodyExitReport.insideZone = some v ∧
        (∃ p : Bool, prevOf dbOneUserInside 1 = some (encB p)) ∧
        prevOf dbOneUserInside 1 ≠ some (encB v)) ∧
    (∀ v : Bool, bodyExitReport.insideZone = some v →
      (POSTm0 dbOneUserInside bodyExitReport).2.alerts ≠ dbOneUserInside.alerts →
      (POSTm0 dbOneUserInside bodyExitReport).2.alerts =
        dbOneUserInside.alerts ++ [⟨1, if v then "enter" else "exit", .fin 11, .fin 21⟩]) :=
  C1_transition_alert dbOneUserInside bodyExitReport (.fin 1) (.fin 11) (.fin 21) 1
    rfl rfl rfl (by decide) (by decide) (by decide) (by decide)
    (Or.inr (Or.inr (by decide)))

-- Claim C2.

/-- Counterexample to claim C2 as stated: when the alert INSERT throws
after the location upsert succeeded (schedule `failAlertInsert`), the
Location State write takes effect while the required Alert Event is never
recorded — a partial write.  The last conjunct shows the failure-free run
of the same request does require an alert. -/
theorem C2_cex :
    (POSTm failAlertInsert dbOneUserInside bodyExitReport).1 = Resp.serverError ∧
    (POSTm failAlertInsert dbOneUserInside bodyExitReport).2.user_locations ≠
      dbOneUserInside.user_locations ∧
    (POSTm failAlertInsert dbOneUserInside bodyExitReport).2.alerts =
      dbOneUserInside.alerts ∧
    (POSTm0 dbOneUserInside bodyExitReport).2.alerts ≠ dbOneUserInside.alerts := by
  decide

/-- Claim C2 (amended): NotFound and InvalidInput responses perform no
writes at all, in both variants and under every failure schedule; and in a
failure-free execution for a non-admin entity with finite coordinates, the
location upsert and any required alert insert both take effect.  (The two
writes are NOT atomic under storage failure — see the counterexample.) -/
theorem C2_no_partial_writes_amended (fail : Nat → Bool) (db : DBM) (dp : DBP)
    (b : Body) :
    (((POSTm fail db b).1 = Resp.notFound ∨ (POSTm fail db b).1 = Resp.invalidInput) →
      (POSTm fail db b).2 = db) ∧
    (((POSTp fail dp b).1 = Resp.notFound ∨ (POSTp fail dp b).1 = Resp.invalidInput) →
      (POSTp fail dp b).2 = dp) ∧
    (∀ (uid lat lng : JSNum) (n : Int) (v : Bool),
      b.userId = some uid → b.latitude = some lat → b.longitude = some lng →
      uid.truthy = true → lat.isFiniteNum = true → lng.isFiniteNum = true →
      findUser db.users uid = some (n, Role.user) →
      b.insideZone = some v → prevOf db n ≠ none → prevOf db n ≠ some (encB v) →
      (POSTm0 db b).2.user_locations =
        upsertRow db.user_locations n ⟨lat, lng, some (encB v)⟩ ∧
      (POSTm0 db b).2.alerts =
        db.alerts ++ [⟨n, if v then "enter" else "exit", lat, lng⟩]) := by
  refine ⟨?_, ?_, ?_⟩
  · unfold POSTm
    repeat' split
    all_goals simp
  · unfold POSTp
    repeat' split
    all_goals simp
  · intro uid lat lng n v hu hlat hlng ht hlatf hlngf hf hbz hpn hpv
    have hiv : insideValM b = encB v := by
      cases v <;> simp [insideValM, hbz, encB]
    have hcond : (hasZoneInfo b && prevOf db n != none
        && prevOf db n != some (insideValM b)) = true := by
      simp [hasZoneInfo, hbz, hiv, hpn, hpv]
    have hao : alertOfM b n lat lng = ⟨n, if v then "enter" else "exit", lat, lng⟩ := by
      cases v <;> simp [alertOfM, hiv, encB]
    rw [POSTm0_user db b uid lat lng n hu hlat hlng ht hlatf hlngf hf, if_pos hcond]
    constructor
    · simp [upsertedM, storedZoneM, hasZoneInfo, hbz, hiv]
    · simp [hao]

/-- Witness for the amended C2: the failure-free exit transition performs
both writes. -/
theorem C2_witness :
    (POSTm0 dbOneUserInside bodyExitReport).2.user_locations =
      upsertRow dbOneUserInside.user_locations 1 ⟨.fin 11, .fin 21, some (encB false)⟩ ∧
    (POSTm0 dbOneUserInside bodyExitReport).2.alerts =
      dbOneUserInside.alerts ++ [⟨1, if false then "enter" else "exit", .fin 11, .fin 21⟩] :=
  (C2_no_partial_writes_amended noFail dbOneUserInside dpOneUserInside bodyExitReport).2.2
    (.fin 1) (.fin 11) (.fin 21) 1 false rfl rfl rfl (by decide) (by decide) (by decide)
    (by decide) rfl (by decide) (by decide)

-- Claim C3.

/-- Counterexample to claim C3 as stated: a NaN latitude (present, of type
number, not finite) does not yield InvalidInput — the MySQL variant's
interpolated upsert fails (500, nothing written) and the Postgres variant
accepts and persists it (200); and a negative `userId` passes validation
and yields NotFound, not InvalidInput. -/
theorem C3_cex :
    JSNum.isFiniteNum .nan = false ∧
    (POSTm0 dbOneUser bodyNaNLat).1 = Resp.serverError ∧
    (POSTm0 dbOneUser bodyNaNLat).1 ≠ Resp.invalidInput ∧
    (POSTm0 dbOneUser bodyNaNLat).2 = dbOneUser ∧
    (POSTp0 dpOneUser bodyNaNLat).1 = Resp.ok ∧
    (POSTp0 dpOneUser bodyNaNLat).2 ≠ dpOneUser ∧
    (POSTm0 dbOneUser bodyNegId).1 = Resp.notFound ∧
    (POSTm0 dbOneUser bodyNegId).1 ≠ Resp.invalidInput := by
  decide

/-- Claim C3 (amended): both variants return InvalidInput exactly when the
request is shape-invalid — `userId` absent, zero, or NaN, or
`latitude`/`longitude` absent/non-numeric — and a shape-invalid request
performs no writes.  Negative ids pass validation; a non-finite coordinate
passes validation too, and on the MySQL variant the upsert statement then
fails (500, no write — last conjunct), while the Postgres variant persists
it. -/
theorem C3_amended_validation (fail : Nat → Bool) (db : DBM) (dp : DBP) (b : Body) :
    ((POSTm fail db b).1 = Resp.invalidInput ↔ badShape b = true) ∧
    ((POSTp fail dp b).1 = Resp.invalidInput ↔ badShape b = true) ∧
    (badShape b = true → (POSTm fail db b).2 = db ∧ (POSTp fail dp b).2 = dp) ∧
    (∀ (uid lat lng : JSNum) (n : Int),
      b.userId = some uid → b.latitude = some lat → b.longitude = some lng →
      uid.truthy = true → findUser db.users uid = some (n, Role.user) →
      (lat.isFiniteNum && lng.isFiniteNum) = false →
      POSTm0 db b = (Resp.serverError, db)) :=
  ⟨(validationM fail db b).1, (validationP fail dp b).1,
   fun h => ⟨(validationM fail db b).2 h, (validationP fail dp b).2 h⟩,
   fun uid lat lng n hu hlat hlng ht hf hbad =>
     POSTm0_badNum db b uid lat lng n hu hlat hlng ht hf hbad⟩

/-- Witness for the amended C3 at a request with `userId` missing. -/
theorem C3_witness :
    ((POSTm noFail dbOneUser bodyMissingId).1 = Resp.invalidInput ↔
      badShape bodyMissingId = true) ∧
    ((POSTp noFail dpOneUser bodyMissingId).1 = Resp.invalidInput ↔
      badShape bodyMissingId = true) ∧
    (badShape bodyMissingId = true →
      (POSTm noFail dbOneUser bodyMissingId).2 = dbOneUser ∧
      (POSTp noFail dpOneUser bodyMissingId).2 = dpOneUser) ∧
    (∀ (uid lat lng : JSNum) (n : Int),
      bodyMissingId.userId = some uid → bodyMissingId.latitude = some lat →
      bodyMissingId.longitude = some lng →
      uid.truthy = true → findUser dbOneUser.users uid = some (n, Role.user) →
      (lat.isFiniteNum && lng.isFiniteNum) = false →
      POSTm0 dbOneUser bodyMissingId = (Resp.serverError, dbOneUser)) :=
  C3_amended_validation noFail dbOneUser dpOneUser bodyMissingId

-- Claim C4.

/-- Claim C4: after a report with a definite hint, then a report with the
hint absent and finite coordinates (which overwrites the stored state with
NULL under the single-row last-write-wins model), a third report with any
definite hint produces no Alert Event: its comparison point is NULL, not
the old definite state. -/
theorem C4_unknown_breaks_comparison (db : DBM) (uid : JSNum)
    (lat1 lng1 lat2 lng2 lat3 lng3 : JSNum) (n : Int) (s t : Bool)
    (ht : uid.truthy = true)
    (hlat2f : lat2.isFiniteNum = true) (hlng2f : lng2.isFiniteNum = true)
    (hf : findUser db.users uid = some (n, Role.user)) :
    (POSTm0 (POSTm0 (POSTm0 db ⟨some uid, some lat1, some lng1, some s⟩).2
        ⟨some uid, some lat2, some lng2, none⟩).2
        ⟨some uid, some lat3, some lng3, some t⟩).2.alerts =
      (POSTm0 (POSTm0 db ⟨some uid, some lat1, some lng1, some s⟩).2
        ⟨some uid, some lat2, some lng2, none⟩).2.alerts := by
  set db1 := (POSTm0 db ⟨some uid, some lat1, some lng1, some s⟩).2 with hdb1
  have hf1 : findUser db1.users uid = some (n, Role.user) := by
    rw [hdb1, POSTm0, POSTm_users]
    exact hf
  set db2 := (POSTm0 db1 ⟨some uid, some lat2, some lng2, none⟩).2 with hdb2
  have hf2 : findUser db2.users uid = some (n, Role.user) := by
    rw [hdb2, POSTm0, POSTm_users]
    exact hf1
  have hrow2 : findRow db2.user_locations n = some ⟨lat2, lng2, none⟩ :=
    (absentHint_state db1 ⟨some uid, some lat2, some lng2, none⟩ uid lat2 lng2 n
      rfl rfl rfl ht hlat2f hlng2f hf1 rfl).2
  have hprev2 : prevOf db2 n = none := by simp [prevOf, hrow2]
  by_cases hbad3 : (lat3.isFiniteNum && lng3.isFiniteNum) = false
  · rw [POSTm0_badNum db2 ⟨some uid, some lat3, some lng3, some t⟩ uid lat3 lng3 n
      rfl rfl rfl ht hf2 hbad3]
  · have hfin3 := Bool.and_eq_true_iff.mp (by simpa using hbad3 :
      (lat3.isFiniteNum && lng3.isFiniteNum) = true)
    rw [POSTm0_user db2 ⟨some uid, some lat3, some lng3, some t⟩ uid lat3 lng3 n
      rfl rfl rfl ht hfin3.1 hfin3.2 hf2]
    simp [hprev2, upsertedM]

/-- Witness for C4: user 1 reports `true`, then no hint, then `true`; the
third call adds no alert. -/
theorem C4_witness :
    (POSTm0 (POSTm0 (POSTm0 dbOneUser ⟨some (.fin 1), some (.fin 10), some (.fin 20), some true⟩).2
        ⟨some (.fin 1), some (.fin 11), some (.fin 21), none⟩).2
        ⟨some (.fin 1), some (.fin 12), some (.fin 22), some true⟩).2.alerts =
      (POSTm0 (POSTm0 dbOneUser ⟨some (.fin 1), some (.fin 10), some (.fin 20), some true⟩).2
        ⟨some (.fin 1), some (.fin 11), some (.fin 21), none⟩).2.alerts :=
  C4_unknown_breaks_comparison dbOneUser (.fin 1) (.fin 10) (.fin 20) (.fin 11)
    (.fin 21) (.fin 12) (.fin 22) 1 true true (by decide) (by decide) (by decide)
    (by decide)

-- Claim C5.

/-- Counterexample to claim C5 as stated ("for every entity"): for an
admin entity holding a stale location row, a hint-absent report persists
nothing — the row keeps its old coordinates and its definite
`inside_zone = 1`, which is not `unknown`. -/
theorem C5_cex :
    (POSTm0 dbAdminIn bodyAdminAbsent).1 = Resp.ignoredOk ∧
    (POSTm0 dbAdminIn bodyAdminAbsent).2 = dbAdminIn ∧
    prevOf (POSTm0 dbAdminIn bodyAdminAbsent).2 2 = some 1 := by
  decide

/-- Claim C5 (amended): for every existing non-admin entity and every
prior state, a shape-valid report with finite coordinates and
`insideZoneHint` absent produces no Alert Event and persists
`inside_zone = NULL` while overwriting the coordinates. -/
theorem C5_absent_hint_amended (db : DBM) (b : Body) (uid lat lng : JSNum) (n : Int)
    (hu : b.userId = some uid) (hlat : b.latitude = some lat)
    (hlng : b.longitude = some lng) (ht : uid.truthy = true)
    (hlatf : lat.isFiniteNum = true) (hlngf : lng.isFiniteNum = true)
    (hf : findUser db.users uid = some (n, Role.user))
    (hz : b.insideZone = none) :
    (POSTm0 db b).2.alerts = db.alerts ∧
    findRow (POSTm0 db b).2.user_locations n = some ⟨lat, lng, none⟩ :=
  absentHint_state db b uid lat lng n hu hlat hlng ht hlatf hlngf hf hz

/-- Witness for the amended C5: user 1 (previously inside) reports with no
hint. -/
theorem C5_witness :
    (POSTm0 dbOneUserInside bodyAbsentHint).2.alerts = dbOneUserInside.alerts ∧
    findRow (POSTm0 dbOneUserInside bodyAbsentHint).2.user_locations 1 =
      some ⟨.fin 3, .fin 4, none⟩ :=
  C5_absent_hint_amended dbOneUserInside bodyAbsentHint (.fin 1) (.fin 3) (.fin 4) 1
    rfl rfl rfl (by decide) (by decide) (by decide) (by decide) rfl

-- Claim C6.

/-- Claim C6: for an existing non-admin entity with no prior Location
State row, the first ReportLocation call never produces an Alert Event,
whatever `insideZoneHint` (and whatever the shape or finiteness of the
coordinates) is. -/
theorem C6_first_report_no_alert (db : DBM) (b : Body) (uid : JSNum) (n : Int)
    (hu : b.userId = some uid)
    (hf : findUser db.users uid = some (n, Role.user))
    (hnorow : findRow db.user_locations n = none) :
    (POSTm0 db b).2.alerts = db.alerts := by
  have hprev : prevOf db n = none := by simp [prevOf, hnorow]
  rcases hlat : b.latitude with _ | lat
  · unfold POSTm0 POSTm
    rw [hu, hlat]
  rcases hlng : b.longitude with _ | lng
  · unfold POSTm0 POSTm
    rw [hu, hlat, hlng]
  by_cases ht : uid.truthy
  · by_cases hbad : (lat.isFiniteNum && lng.isFiniteNum) = false
    · rw [POSTm0_badNum db b uid lat lng n hu hlat hlng ht hf hbad]
    · have hfin := Bool.and_eq_true_iff.mp (by simpa using hbad :
        (lat.isFiniteNum && lng.isFiniteNum) = true)
      rw [POSTm0_user db b uid lat lng n hu hlat hlng ht hfin.1 hfin.2 hf]
      simp [hprev, upsertedM]
  · unfold POSTm0 POSTm
    rw [hu, hlat, hlng]
    simp [ht]

/-- Witness for C6: user 1's very first report, with a definite hint,
creates no alert. -/
theorem C6_witness :
    (POSTm0 dbOneUser bodyFirstReport).2.alerts = dbOneUser.alerts :=
  C6_first_report_no_alert dbOneUser bodyFirstReport (.fin 1) 1 rfl
    (by decide) (by decide)

-- Claim C7.

/-- Claim C7: a shape-valid ReportLocation call whose `userId` resolves to
an admin returns success with `ignored = true` and leaves the database
exactly as it was, in both variants (the admin return precedes every
write, and no coordinate is bound before it). -/
theorem C7_admin_ignored (db : DBM) (dp : DBP) (b : Body) (uid lat lng : JSNum)
    (n m : Int)
    (hu : b.userId = some uid) (hlat : b.latitude = some lat)
    (hlng : b.longitude = some lng) (ht : uid.truthy = true)
    (hfm : findUser db.users uid = some (n, Role.admin))
    (hfp : findUser dp.users uid = some (m, Role.admin)) :
    POSTm0 db b = (Resp.ignoredOk, db) ∧ POSTp0 dp b = (Resp.ignoredOk, dp) :=
  ⟨POSTm0_admin db b uid lat lng n hu hlat hlng ht hfm,
   POSTp0_admin dp b uid lat lng m hu hlat hlng ht hfp⟩

/-- Witness for C7: admin user 2 reports a location; nothing changes. -/
theorem C7_witness :
    POSTm0 dbAdminIn bodyAdminAbsent = (Resp.ignoredOk, dbAdminIn) ∧
    POSTp0 dpAdmin bodyAdminAbsent = (Resp.ignoredOk, dpAdmin) :=
  C7_admin_ignored dbAdminIn dpAdmin bodyAdminAbsent (.fin 2) (.fin 3) (.fin 4) 2 2
    rfl rfl rfl (by decide) (by decide) (by decide)

-- Claim C8.

/-- Claim C8: a shape-valid ReportLocation call whose valid-shaped
`userId` (finite for the MySQL driver, integral for the Postgres int4
binding) matches no user returns NotFound and leaves the database exactly
as it was, in both variants. -/
theorem C8_unknown_user (db : DBM) (dp : DBP) (b : Body) (uid lat lng : JSNum)
    (hu : b.userId = some uid) (hlat : b.latitude = some lat)
    (hlng : b.longitude = some lng) (ht : uid.truthy = true)
    (hfin : uid.isFiniteNum = true) (hq : uid.isIntegral = true)
    (hfm : findUser db.users uid = none)
    (hfp : findUser dp.users uid = none) :
    POSTm0 db b = (Resp.notFound, db) ∧ POSTp0 dp b = (Resp.notFound, dp) :=
  ⟨POSTm0_notFound db b uid lat lng hu hlat hlng ht hfin hfm,
   POSTp0_notFound dp b uid lat lng hu hlat hlng ht hq hfp⟩

/-- Witness for C8 at userId 999999, which exists in neither state. -/
theorem C8_witness :
    POSTm0 dbOneUser bodyUnknownId = (Resp.notFound, dbOneUser) ∧
    POSTp0 dpOneUser bodyUnknownId = (Resp.notFound, dpOneUser) :=
  C8_unknown_user dbOneUser dpOneUser bodyUnknownId (.fin 999999) (.fin 0) (.fin 0)
    rfl rfl rfl (by decide) (by decide) (by decide) (by decide) (by decide)

-- Claim C9.

/-- Counterexample to claim C9 as stated ("for every input"): on
corresponding (here: equal-shaped empty-location) states, a NaN latitude
makes the MySQL variant fail the interpolated upsert (500, state
unchanged) while the Postgres variant succeeds and persists the row; and
a finite non-integral userId (1.5) is a clean no-match 404 in MySQL but an
int4 binding failure 500 in Postgres.  The two implementations are
therefore not observably equivalent on all inputs. -/
theorem C9_cex :
    dbRel dbOneUser dpOneUser ∧
    (POSTm0 dbOneUser bodyNaNLat).1 = Resp.serverError ∧
    (POSTm0 dbOneUser bodyNaNLat).2 = dbOneUser ∧
    (POSTp0 dpOneUser bodyNaNLat).1 = Resp.ok ∧
    (POSTp0 dpOneUser bodyNaNLat).2 ≠ dpOneUser ∧
    (POSTm0 dbOneUser bodyFracId).1 = Resp.notFound ∧
    (POSTp0 dpOneUser bodyFracId).1 = Resp.serverError :=
  ⟨⟨rfl, rfl, rfl⟩, by decide⟩

/-- Claim C9 (amended): the two implementations are observably equivalent
on every driver-safe input — integral `userId` and finite coordinates
where present — started from corresponding states (same users and alerts,
location rows related by the TINYINT encoding of the boolean column):
for every such input and every failure schedule they return the same
response and reach corresponding states, in particular making the same
alert-emission decision with the same kind and coordinates.  Outside the
driver-safe set they diverge, as the counterexample shows. -/
theorem C9_equiv_driver_safe (fail : Nat → Bool) (dm : DBM) (dp : DBP) (b : Body)
    (hrel : dbRel dm dp) (hsafe : driverSafe b = true) :
    (POSTm fail dm b).1 = (POSTp fail dp b).1 ∧
    dbRel (POSTm fail dm b).2 (POSTp fail dp b).2 := by
  have hdm : dm = encDB dp := (dbRel_iff dm dp).mp hrel
  subst hdm
  rw [POST_functional_rel fail dp b hsafe]
  exact ⟨rfl, rfl, rfl, rfl⟩

/-- Witness for the amended C9 at the concrete exit transition on
corresponding states. -/
theorem C9_witness :
    (POSTm noFail dbOneUserInside bodyExitReport).1 =
      (POSTp noFail dpOneUserInside bodyExitReport).1 ∧
    dbRel (POSTm noFail dbOneUserInside bodyExitReport).2
      (POSTp noFail dpOneUserInside bodyExitReport).2 :=
  C9_equiv_driver_safe noFail dbOneUserInside dpOneUserInside bodyExitReport
    ⟨rfl, rfl, by decide⟩ (by decide)

-- Claim C10.

/-- Claim C10: the Location State persisted by a successful non-admin
report depends only on the report, not on the previously stored state —
two runs of the same report against databases with the same users but
arbitrary different location state persist the identical row. -/
theorem C10_state_independent (db1 db2 : DBM) (b : Body) (uid lat lng : JSNum)
    (n : Int) (husers : db1.users = db2.users)
    (hu : b.userId = some uid) (hlat : b.latitude = some lat)
    (hlng : b.longitude = some lng) (ht : uid.truthy = true)
    (hlatf : lat.isFiniteNum = true) (hlngf : lng.isFiniteNum = true)
    (hf : findUser db1.users uid = some (n, Role.user)) :
    findRow (POSTm0 db1 b).2.user_locations n =
      findRow (POSTm0 db2 b).2.user_locations n ∧
    findRow (POSTm0 db1 b).2.user_locations n =
      some ⟨lat, lng, b.insideZone.map encB⟩ := by
  have h1 := POSTm0_stored db1 b uid lat lng n hu hlat hlng ht hlatf hlngf hf
  have h2 := POSTm0_stored db2 b uid lat lng n hu hlat hlng ht hlatf hlngf
    (husers ▸ hf)
  exact ⟨h1.trans h2.symm, h1⟩

/-- Witness for C10: the same report against an empty and a non-empty
location table persists the same row. -/
theorem C10_witness :
    findRow (POSTm0 dbOneUser bodyExitReport).2.user_locations 1 =
      findRow (POSTm0 dbOneUserInside bodyExitReport).2.user_locations 1 ∧
    findRow (POSTm0 dbOneUser bodyExitReport).2.user_locations 1 =
      some ⟨.fin 11, .fin 21, bodyExitReport.insideZone.map encB⟩ :=
  C10_state_independent dbOneUser dbOneUserInside bodyExitReport (.fin 1)
    (.fin 11) (.fin 21) 1 rfl rfl rfl rfl (by decide) (by decide) (by decide)
    (by decide)
